import Mathlib

/-!
Shallow embedding of the I'Tikaf Management System backend
(activityApp, activityParticipantApp, feedbacksApp), faithful to the
Django source.  Database tables are lists of records, the clock is an
explicit integer parameter, and each HTTP view becomes a pure function
from a state and a request to a new state and a response.
-/

namespace Itikaf

/-- `ActivityParticipant.PARTICIPATION_STATUS_CHOICES` from
activityParticipantApp/models.py. -/
inductive ParticipationStatus
  | registered
  | attended
  | cancelled
  | no_show
deriving DecidableEq, Repr

/-- Row of the `Activity` model (activityApp/models.py); datetimes are
integer timestamps, foreign keys are ids. -/
structure Activity where
  id : Nat
  name : String
  start_datetime : Int
  end_datetime : Int
  required_participants : Nat
  is_active : Bool
  created_by : Nat
deriving DecidableEq, Repr

/-- Row of the `CustomUser` model (userApp/models.py), restricted to the
fields the participation subsystem reads. -/
structure CustomUser where
  id : Nat
  role : String
  is_active : Bool
deriving DecidableEq, Repr

/-- Row of the `ActivityParticipant` model
(activityParticipantApp/models.py). -/
structure ActivityParticipant where
  id : Nat
  activity : Nat
  user : Nat
  participation_status : ParticipationStatus
  registration_date : Int
  notes : String
  is_active : Bool
deriving DecidableEq, Repr

/-- Row of the `ActivityFeedback` model (feedbacksApp/models.py). -/
structure ActivityFeedback where
  id : Nat
  created_by : Nat
  activity : Nat
  rating : Int
  comment : String
deriving DecidableEq, Repr

/-- The whole backing store. -/
structure State where
  activities : List Activity
  users : List CustomUser
  participants : List ActivityParticipant
  feedbacks : List ActivityFeedback
deriving DecidableEq, Repr

def State.findActivity (s : State) (aid : Nat) : Option Activity :=
  s.activities.find? (fun a => a.id == aid)

def State.findUser (s : State) (uid : Nat) : Option CustomUser :=
  s.users.find? (fun u => u.id == uid)

/-- `valid_transitions` dictionary, identical in
`ActivityParticipantUpdateSerializer.validate_participation_status`,
`ActivityParticipant.clean` and `bulk_update_participation_status`. -/
def validTransitions : ParticipationStatus → List ParticipationStatus
  | .registered => [.attended, .cancelled, .no_show]
  | .attended => []
  | .cancelled => [.registered]
  | .no_show => [.registered]

/-- `ActivityParticipant.objects.filter(activity=…, participation_status='registered',
is_active=True).count()`. -/
def registeredCount (ps : List ActivityParticipant) (aid : Nat) : Nat :=
  (ps.filter (fun r =>
    r.activity == aid && r.participation_status == .registered && r.is_active)).length

/-- The same count with `.exclude(id=excluded)`, used on the
re-registration path. -/
def registeredCountExcl (ps : List ActivityParticipant) (aid : Nat) (excluded : Nat) : Nat :=
  (ps.filter (fun r =>
    r.activity == aid && r.participation_status == .registered && r.is_active
      && r.id != excluded)).length

/-- `filter(activity=…, user=…, participation_status__in=['registered','attended'],
is_active=True).first()`. -/
def findExistingActive (ps : List ActivityParticipant) (aid uid : Nat) :
    Option ActivityParticipant :=
  ps.find? (fun r =>
    r.activity == aid && r.user == uid &&
    (r.participation_status == .registered || r.participation_status == .attended) &&
    r.is_active)

/-- `filter(activity=…, user=…, participation_status__in=['cancelled','no_show'],
is_active=True).first()`. -/
def findCancelledActive (ps : List ActivityParticipant) (aid uid : Nat) :
    Option ActivityParticipant :=
  ps.find? (fun r =>
    r.activity == aid && r.user == uid &&
    (r.participation_status == .cancelled || r.participation_status == .no_show) &&
    r.is_active)

/-- `ActivityParticipant.can_cancel` property. -/
def canCancel (r : ActivityParticipant) (a : Activity) (t : Int) : Bool :=
  r.participation_status == .registered && decide (t < a.start_datetime)

/-- `ActivityParticipant.can_attend` property. -/
def canAttend (r : ActivityParticipant) (a : Activity) (t : Int) : Bool :=
  r.participation_status == .registered &&
    decide (a.start_datetime ≤ t) && decide (t ≤ a.end_datetime)

/-- `ActivityParticipant.clean`, run by `save` via `full_clean`; returns
`true` when the errors dict stays empty.  `hasPk` distinguishes updates
from inserts (`self.pk`). -/
def cleanParticipant (s : State) (r : ActivityParticipant) (hasPk : Bool) (t : Int) : Bool :=
  match s.findActivity r.activity, s.findUser r.user with
  | some a, some u =>
    a.is_active && u.is_active &&
    (u.role == "imam" || u.role == "participant") &&
    (!(decide (a.start_datetime ≤ t) && r.participation_status == .registered && !hasPk)) &&
    (hasPk || (findExistingActive s.participants r.activity r.user).isNone) &&
    (!hasPk ||
      (match s.participants.find? (fun p => p.id == r.id) with
       | some old =>
           old.participation_status == r.participation_status ||
           (validTransitions old.participation_status).contains r.participation_status
       | none => true))
  | _, _ => false

/-- Replace the row whose `id` matches, as `instance.save()` does for an
existing primary key. -/
def updateById (l : List ActivityParticipant) (u : ActivityParticipant) :
    List ActivityParticipant :=
  l.map (fun b => if b.id == u.id then u else b)

/-- Fresh primary key for an insert. -/
def freshParticipantId (s : State) : Nat :=
  (s.participants.map (fun r => r.id)).foldr Nat.max 0 + 1

/-- Body of `POST /activity-participants/create/`. -/
structure CreateRequest where
  activity : Nat
  user : Nat
  participation_status : ParticipationStatus := .registered
  notes : String := ""
deriving DecidableEq, Repr

/-- The distinct `serializers.ValidationError` messages raised on the
registration path. -/
inductive CreateError
  | inactiveActivity
  | alreadyStarted
  | capacityFull
  | inactiveUser
  | badRole
  | alreadyRegistered
  | alreadyAttended
  | reRegisterCapacityFull
  | cleanFailed
  | refNotFound
deriving DecidableEq, Repr

inductive CreateResp
  | created (r : ActivityParticipant)
  | badRequestC (e : CreateError)
deriving DecidableEq, Repr

/-- `ActivityParticipantCreateSerializer.validate_activity`; `some e`
plays the raised error, `none` is a pass. -/
def validate_activity (s : State) (a : Activity) (t : Int) : Option CreateError :=
  if !a.is_active then some .inactiveActivity
  else if decide (a.start_datetime ≤ t) then some .alreadyStarted
  else if decide (a.required_participants ≤ registeredCount s.participants a.id) then
    some .capacityFull
  else none

/-- `ActivityParticipantCreateSerializer.validate_user`. -/
def validate_user (u : CustomUser) : Option CreateError :=
  if !u.is_active then some .inactiveUser
  else if !(u.role == "participant" || u.role == "imam") then some .badRole
  else none

/-- `ActivityParticipantCreateSerializer.validate` (cross-field): an
error, or the cancelled/no_show instance to reuse, or nothing. -/
def createValidate (s : State) (a : Activity) (u : CustomUser) :
    Except CreateError (Option ActivityParticipant) :=
  match findExistingActive s.participants a.id u.id with
  | some r =>
    if r.participation_status == .registered then .error .alreadyRegistered
    else .error .alreadyAttended
  | none =>
    match findCancelledActive s.participants a.id u.id with
    | some r =>
      if decide (a.required_participants ≤ registeredCountExcl s.participants a.id r.id) then
        .error .reRegisterCapacityFull
      else .ok (some r)
    | none => .ok none

/-- `create_activity_participant` view plus
`ActivityParticipantCreateSerializer.create`: field validation, cross
validation, then either the mutate-in-place re-registration path or an
insert guarded by the final capacity re-check; every save runs the model
clean. -/
def create_activity_participant (s : State) (req : CreateRequest) (t : Int) :
    State × CreateResp :=
  match s.findActivity req.activity, s.findUser req.user with
  | some a, some u =>
    match validate_activity s a t with
    | some e => (s, .badRequestC e)
    | none =>
      match validate_user u with
      | some e => (s, .badRequestC e)
      | none =>
        match createValidate s a u with
        | .error e => (s, .badRequestC e)
        | .ok (some inst) =>
          let upd := { inst with
            participation_status := req.participation_status,
            notes := req.notes,
            registration_date := t }
          if cleanParticipant s upd true t then
            ({ s with participants := updateById s.participants upd }, .created upd)
          else (s, .badRequestC .cleanFailed)
        | .ok none =>
          if decide (a.required_participants ≤ registeredCount s.participants a.id) then
            (s, .badRequestC .capacityFull)
          else
            let newRec : ActivityParticipant := {
              id := freshParticipantId s,
              activity := req.activity,
              user := req.user,
              participation_status := req.participation_status,
              registration_date := t,
              notes := req.notes,
              is_active := true }
            if cleanParticipant s newRec false t then
              ({ s with participants := s.participants ++ [newRec] }, .created newRec)
            else (s, .badRequestC .cleanFailed)
  | _, _ => (s, .badRequestC .refNotFound)

/-- Body of `PATCH /activity-participants/update/<id>/` (partial update:
absent fields stay untouched). -/
structure UpdateRequest where
  participation_status : Option ParticipationStatus := none
  notes : Option String := none
deriving DecidableEq, Repr

/-- Errors raised by `ActivityParticipantUpdateSerializer`; the invalid
transition error carries the old and the new status, mirroring
"Cannot change status from {old_status} to {value}.". -/
inductive UpdateError
  | invalidTransition (oldStatus newStatus : ParticipationStatus)
  | cannotAttendNow
  | cannotCancelNow
  | cleanFailed
deriving DecidableEq, Repr

inductive UpdateResp
  | updatedOk (r : ActivityParticipant)
  | badRequestU (e : UpdateError)
  | notFoundU
deriving DecidableEq, Repr

/-- `ActivityParticipantUpdateSerializer.validate_participation_status`. -/
def validate_participation_status (inst : ActivityParticipant) (a : Activity)
    (t : Int) (value : ParticipationStatus) : Option UpdateError :=
  let old := inst.participation_status
  if old != value && !((validTransitions old).contains value) then
    some (.invalidTransition old value)
  else if value == .attended && !(canAttend inst a t) then
    some .cannotAttendNow
  else if value == .cancelled && !(canCancel inst a t) then
    some .cannotCancelNow
  else none

/-- `update_activity_participant` view plus
`ActivityParticipantUpdateSerializer.update`; the view wraps the save in
`transaction.atomic`, so every error leaves the state unchanged. -/
def update_activity_participant (s : State) (pid : Nat) (req : UpdateRequest)
    (t : Int) : State × UpdateResp :=
  match s.participants.find? (fun r => r.id == pid && r.is_active) with
  | none => (s, .notFoundU)
  | some inst =>
    match s.findActivity inst.activity with
    | none => (s, .notFoundU)
    | some a =>
      match (match req.participation_status with
             | some v => validate_participation_status inst a t v
             | none => none) with
      | some e => (s, .badRequestU e)
      | none =>
        let upd := { inst with
          participation_status := req.participation_status.getD inst.participation_status,
          notes := req.notes.getD inst.notes }
        if cleanParticipant s upd true t then
          ({ s with participants := updateById s.participants upd }, .updatedOk upd)
        else (s, .badRequestU .cleanFailed)

/-- One element of the `POST /activity-participants/bulk-update-status/`
body. -/
structure BulkItem where
  participant_id : Nat
  participation_status : ParticipationStatus
deriving DecidableEq, Repr

/-- One entry of the per-item error list; `index` is the `idx` the loop
records with each failure. -/
structure BulkError where
  index : Nat
  message : String
deriving DecidableEq, Repr

/-- One iteration of the loop inside `bulk_update_participation_status`:
either the participant row is updated in place, or an error message is
produced and the state is left as it was (the loop attaches the item's
index to the message). -/
def bulkStep (actingUser : CustomUser) (t : Int) (st : State)
    (item : BulkItem) : State × Option String :=
  if item.participant_id == 0 then
    (st, some "Both participant_id and participation_status are required")
  else
    match st.participants.find? (fun r => r.id == item.participant_id && r.is_active) with
    | none => (st, some "No ActivityParticipant matches the given query.")
    | some participant =>
      match st.findActivity participant.activity with
      | none => (st, some "No Activity matches the given query.")
      | some activity =>
        if activity.created_by != actingUser.id then
          (st, some "Insufficient permissions to update this participant")
        else if !((validTransitions participant.participation_status).contains
                    item.participation_status) then
          (st, some "Invalid status transition")
        else if item.participation_status == .attended && !(canAttend participant activity t) then
          (st, some "Cannot mark as attended")
        else if item.participation_status == .cancelled && !(canCancel participant activity t) then
          (st, some "Cannot cancel registration")
        else
          let upd := { participant with participation_status := item.participation_status }
          if cleanParticipant st upd true t then
            ({ st with participants := updateById st.participants upd }, none)
          else (st, some "Validation error on save")

/-- The whole `for idx, item in enumerate(data)` loop, threading the
mid-batch state and collecting updated ids and indexed errors in order. -/
def bulkRun (actingUser : CustomUser) (t : Int) :
    State → Nat → List BulkItem → State × List BulkError × List Nat
  | st, _, [] => (st, [], [])
  | st, idx, item :: rest =>
    match bulkStep actingUser t st item with
    | (st1, none) =>
      let r := bulkRun actingUser t st1 (idx + 1) rest
      (r.1, r.2.1, item.participant_id :: r.2.2)
    | (st1, some m) =>
      let r := bulkRun actingUser t st1 (idx + 1) rest
      (r.1, ⟨idx, m⟩ :: r.2.1, r.2.2)

structure BulkResult where
  httpStatus : Nat
  state : State
  errors : List BulkError
  updated : List Nat
deriving DecidableEq, Repr

/-- `bulk_update_participation_status` view: empty list is a 400; any
per-item error triggers `transaction.set_rollback(True)` and a 207 with
the original state; otherwise all updates commit with a 200. -/
def bulk_update_participation_status (s : State) (actingUser : CustomUser)
    (data : List BulkItem) (t : Int) : BulkResult :=
  if data.isEmpty then ⟨400, s, [], []⟩
  else
    let r := bulkRun actingUser t s 0 data
    if r.2.1.isEmpty then ⟨200, r.1, r.2.1, r.2.2⟩
    else ⟨207, s, r.2.1, r.2.2⟩

inductive MarkResp
  | okMarked (r : ActivityParticipant)
  | forbidden
  | wrongStatus
  | outsideWindow
  | notFoundM
  | serverErrorM
deriving DecidableEq, Repr

/-- `mark_as_attended` view (`PATCH /activity-participants/mark-attended/<id>/`).
The authorization test is the literal
`not (request.user == participant.user or request.user.role != "imam")`. -/
def mark_as_attended (s : State) (actingUser : CustomUser) (pid : Nat)
    (t : Int) : State × MarkResp :=
  match s.participants.find? (fun r => r.id == pid && r.is_active) with
  | none => (s, .notFoundM)
  | some participant =>
    if !(actingUser.id == participant.user || actingUser.role != "imam") then
      (s, .forbidden)
    else if participant.participation_status != .registered then
      (s, .wrongStatus)
    else
      match s.findActivity participant.activity with
      | none => (s, .notFoundM)
      | some a =>
        if !(decide (a.start_datetime ≤ t) && decide (t ≤ a.end_datetime)) then
          (s, .outsideWindow)
        else
          let upd := { participant with participation_status := ParticipationStatus.attended }
          if cleanParticipant s upd true t then
            ({ s with participants := updateById s.participants upd }, .okMarked upd)
          else (s, .serverErrorM)

inductive DeleteResp
  | okDeleted
  | cannotDeleteAttended
  | notFoundD
  | serverErrorD
deriving DecidableEq, Repr

/-- `delete_activity_participant` view: refuses attended records with a
400, otherwise soft-deletes by `is_active = False` (the save still runs
the model clean; a clean failure surfaces as the generic 500). -/
def delete_activity_participant (s : State) (pid : Nat) (t : Int) :
    State × DeleteResp :=
  match s.participants.find? (fun r => r.id == pid && r.is_active) with
  | none => (s, .notFoundD)
  | some participant =>
    if participant.participation_status == .attended then
      (s, .cannotDeleteAttended)
    else
      let upd := { participant with is_active := false }
      if cleanParticipant s upd true t then
        ({ s with participants := updateById s.participants upd }, .okDeleted)
      else (s, .serverErrorD)

inductive CheckResp
  | registeredAs (r : ActivityParticipant)
  | notRegistered
  | activityNotFound
  | serverErrorCk
deriving DecidableEq, Repr

/-- `check_user_activity_participation` view: Django `.get()` demands a
unique active row; `DoesNotExist` yields the is_registered = false
answer, several rows escape as the generic 500. -/
def check_user_activity_participation (s : State) (actingUser : CustomUser)
    (activityId : Nat) : CheckResp :=
  match s.activities.find? (fun a => a.id == activityId && a.is_active) with
  | none => .activityNotFound
  | some _ =>
    match s.participants.filter (fun r =>
        r.user == actingUser.id && r.activity == activityId && r.is_active) with
    | [r] => .registeredAs r
    | [] => .notRegistered
    | _ => .serverErrorCk

inductive FeedbackResp
  | createdF (s : State) (f : ActivityFeedback)
  | badRequestF (msg : String)
  | notFoundF
deriving DecidableEq, Repr

def freshFeedbackId (s : State) : Nat :=
  (s.feedbacks.map (fun f => f.id)).foldr Nat.max 0 + 1

/-- `create_feedback` view (feedbacksApp/views.py): serializer
validation (the model's rating validators), activity lookup, duplicate
check, rating range re-check, then the insert.  The view never consults
the participation ledger. -/
def create_feedback (s : State) (actingUser : CustomUser) (activityId : Nat)
    (rating : Int) (comment : String) : FeedbackResp :=
  if !(decide (1 ≤ rating) && decide (rating ≤ 5)) then
    .badRequestF "serializer rating validators"
  else
    match s.activities.find? (fun a => a.id == activityId && a.is_active) with
    | none => .notFoundF
    | some activity =>
      if s.feedbacks.any (fun f => f.created_by == actingUser.id && f.activity == activity.id) then
        .badRequestF "You have already provided feedback for this activity"
      else if !(decide (1 ≤ rating) && decide (rating ≤ 5)) then
        .badRequestF "Rating must be between 1 and 5"
      else
        .createdF
          { s with feedbacks := s.feedbacks ++
              [{ id := freshFeedbackId s, created_by := actingUser.id,
                 activity := activityId, rating := rating, comment := comment }] }
          { id := freshFeedbackId s, created_by := actingUser.id,
            activity := activityId, rating := rating, comment := comment }

/-- The error cases of `Activity.clean` (activityApp/models.py), in
source order. -/
inductive ActivityError
  | nameTooShort
  | badDates
  | badCapacity
  | overlapConflict
deriving DecidableEq, Repr

/-- The half-open interval overlap test used by the `clean` query:
`start_datetime__lt=self.end_datetime AND end_datetime__gt=self.start_datetime`. -/
def overlaps (a b : Activity) : Bool :=
  decide (a.start_datetime < b.end_datetime) && decide (a.end_datetime > b.start_datetime)

/-- Python's `str.strip()`: the characters with surrounding whitespace
removed (kernel-reducible replacement for `String.trim`). -/
def strip (s : String) : List Char :=
  ((s.data.dropWhile Char.isWhitespace).reverse.dropWhile Char.isWhitespace).reverse

/-- `Activity.clean`: name length, date ordering, capacity, then the
overlap scan over active activities excluding self. -/
def cleanActivity (s : State) (a : Activity) : Option ActivityError :=
  if decide ((strip a.name).length < 3) then some .nameTooShort
  else if decide (a.end_datetime ≤ a.start_datetime) then some .badDates
  else if decide (a.required_participants < 1) then some .badCapacity
  else if s.activities.any (fun b =>
      b.is_active && b.id != a.id && overlaps b a) then
    some .overlapConflict
  else none

/-- `Activity.save`: `full_clean` then insert or update in place. -/
def saveActivity (s : State) (a : Activity) : Except ActivityError State :=
  match cleanActivity s a with
  | some e => .error e
  | none =>
    if s.activities.any (fun b => b.id == a.id) then
      .ok { s with activities := s.activities.map (fun b => if b.id == a.id then a else b) }
    else
      .ok { s with activities := s.activities ++ [a] }

/-- The spec's §3 invariant: no two distinct active activities have
overlapping time windows. -/
def noActiveOverlap (s : State) : Prop :=
  ∀ a ∈ s.activities, ∀ b ∈ s.activities,
    a.is_active = true → b.is_active = true → a.id ≠ b.id →
    ¬ (a.start_datetime < b.end_datetime ∧ a.end_datetime > b.start_datetime)

/-- The dict built by `ActivityParticipant.get_activity_statistics`. -/
structure ActivityStatistics where
  total_registered : Nat
  total_attended : Nat
  total_cancelled : Nat
  total_no_show : Nat
  total_participants : Nat
deriving DecidableEq, Repr

/-- `ActivityParticipant.get_activity_statistics`. -/
def get_activity_statistics (s : State) (aid : Nat) : ActivityStatistics :=
  let participants := s.participants.filter (fun r => r.activity == aid && r.is_active)
  { total_registered :=
      (participants.filter (fun r => r.participation_status == .registered)).length,
    total_attended :=
      (participants.filter (fun r => r.participation_status == .attended)).length,
    total_cancelled :=
      (participants.filter (fun r => r.participation_status == .cancelled)).length,
    total_no_show :=
      (participants.filter (fun r => r.participation_status == .no_show)).length,
    total_participants := participants.length }

/-- Round to the nearest integer with ties to the even integer, as
Python's built-in `round` does. -/
def roundHalfEven (q : ℚ) : ℤ :=
  let f := ⌊q⌋
  let r := q - f
  if r < 1 / 2 then f
  else if 1 / 2 < r then f + 1
  else if f % 2 = 0 then f else f + 1

/-- Python's `round(x, 2)`. -/
def pyRound2 (q : ℚ) : ℚ :=
  (roundHalfEven (q * 100) : ℚ) / 100

/-- `ActivityStatisticsSerializer.get_attendance_rate`. -/
def get_attendance_rate (st : ActivityStatistics) : ℚ :=
  if st.total_registered = 0 then 0
  else pyRound2 ((st.total_attended : ℚ) / (st.total_registered : ℚ) * 100)

/-! ## Concrete fixtures used by witnesses and counterexamples -/

/-- An open activity with capacity 1, window [100, 200]. -/
def actA : Activity :=
  { id := 1, name := "Qiyam Night", start_datetime := 100, end_datetime := 200,
    required_participants := 1, is_active := true, created_by := 10 }

def userP1 : CustomUser := { id := 20, role := "participant", is_active := true }

def userP2 : CustomUser := { id := 21, role := "participant", is_active := true }

def userImam : CustomUser := { id := 30, role := "imam", is_active := true }

def organizer : CustomUser := { id := 10, role := "imam", is_active := true }

/-! ## Claim C2: disallowed status transitions -/

/-- A list of length at most one that has a member is exactly that
singleton. -/
lemma eq_singleton_of_length_le_one {α : Type} {l : List α} {x : α}
    (h : l.length ≤ 1) (hx : x ∈ l) : l = [x] := by
  match l, hx with
  | [y], hx =>
    have : x = y := by simpa using hx
    simp [this]
  | y :: z :: l, _ => simp at h

/-- Claim C2 (amended: for requests that actually change the status,
i.e. old ≠ new): a status-update whose (old, new) pair with old ≠ new is
outside the transition table fails with the error naming the old and the
new status, and the state is unchanged. -/
theorem update_rejects_disallowed_transition
    (s : State) (pid : Nat) (req : UpdateRequest) (t : Int)
    (r : ActivityParticipant) (a : Activity) (v : ParticipationStatus)
    (hfind : s.participants.find? (fun p => p.id == pid && p.is_active) = some r)
    (hact : s.findActivity r.activity = some a)
    (hreq : req.participation_status = some v)
    (hne : r.participation_status ≠ v)
    (hnotin : v ∉ validTransitions r.participation_status) :
    update_activity_participant s pid req t =
      (s, UpdateResp.badRequestU (UpdateError.invalidTransition r.participation_status v)) := by
  have h1 : (r.participation_status != v
      && !((validTransitions r.participation_status).contains v)) = true := by
    simp only [Bool.and_eq_true, bne_iff_ne, ne_eq, Bool.not_eq_true']
    refine ⟨hne, ?_⟩
    simpa using hnotin
  simp only [update_activity_participant, hfind, hact, hreq,
    validate_participation_status, h1, if_true]

/-- The attended record used by the C2 witness. -/
def c2wRec : ActivityParticipant :=
  { id := 1, activity := 1, user := 20,
    participation_status := ParticipationStatus.attended,
    registration_date := 0, notes := "", is_active := true }

def c2wState : State :=
  { activities := [actA], users := [userP1], participants := [c2wRec],
    feedbacks := [] }

/-- Witness for the amended C2 theorem: an attended record cannot be
moved back to registered. -/
theorem update_rejects_disallowed_transition_witness :
    update_activity_participant c2wState 1
        { participation_status := some ParticipationStatus.registered } 150 =
      (c2wState, UpdateResp.badRequestU
        (UpdateError.invalidTransition ParticipationStatus.attended
          ParticipationStatus.registered)) :=
  update_rejects_disallowed_transition c2wState 1
    { participation_status := some ParticipationStatus.registered } 150
    c2wRec actA ParticipationStatus.registered
    rfl rfl rfl (by decide) (by decide)

/-- The active no_show record of the C2 counterexample. -/
def c2cRec : ActivityParticipant :=
  { id := 1, activity := 1, user := 20,
    participation_status := ParticipationStatus.no_show,
    registration_date := 0, notes := "", is_active := true }

def c2cState : State :=
  { activities := [actA], users := [userP1], participants := [c2cRec],
    feedbacks := [] }

/-- Claim C2 as stated is false: the pair (no_show, no_show) is outside
the transition table, yet the update request succeeds (the serializer
only rejects when the status actually changes), so it neither fails
nor names the statuses. -/
theorem update_same_status_counterexample :
    ParticipationStatus.no_show ∉ validTransitions ParticipationStatus.no_show ∧
    (update_activity_participant c2cState 1
        { participation_status := some ParticipationStatus.no_show } 0).2 =
      UpdateResp.updatedOk c2cRec := by
  constructor
  · decide
  · rfl

/-! ## Claim C6: mark-attended authorization -/

/-- Claim C6 (amended): the mark-attended endpoint returns 403 exactly
when the acting user is not the record's participant AND has the imam
role (the code's literal inverted test), and a 403 leaves the state
unchanged.  So it authorizes the participant themself or any non-imam
user. -/
theorem mark_attended_forbidden_iff
    (s : State) (u : CustomUser) (pid : Nat) (t : Int)
    (r : ActivityParticipant)
    (hfind : s.participants.find? (fun p => p.id == pid && p.is_active) = some r) :
    ((mark_as_attended s u pid t).2 = MarkResp.forbidden ↔
      (u.id ≠ r.user ∧ u.role = "imam")) ∧
    ((mark_as_attended s u pid t).2 = MarkResp.forbidden →
      (mark_as_attended s u pid t).1 = s) := by
  have hiff : (!(u.id == r.user || u.role != "imam")) = true ↔
      (u.id ≠ r.user ∧ u.role = "imam") := by
    simp [bne]
  by_cases h : u.id ≠ r.user ∧ u.role = "imam"
  · have hb : (!(u.id == r.user || u.role != "imam")) = true := hiff.mpr h
    have hres : mark_as_attended s u pid t = (s, MarkResp.forbidden) := by
      simp only [mark_as_attended, hfind, hb, if_true]
    rw [hres]
    exact ⟨by simpa using h, fun _ => rfl⟩
  · have hb : (!(u.id == r.user || u.role != "imam")) = false := by
      cases hx : (!(u.id == r.user || u.role != "imam")) with
      | false => rfl
      | true => exact absurd (hiff.mp hx) h
    have hne2 : (mark_as_attended s u pid t).2 ≠ MarkResp.forbidden := by
      simp only [mark_as_attended, hfind, hb, Bool.false_eq_true, if_false]
      split
      · simp
      · split
        · simp
        · split
          · simp
          · split <;> simp
    exact ⟨by simp [hne2, h], fun hf => absurd hf hne2⟩

/-- The registered record used by the C6 fixtures. -/
def c6Rec : ActivityParticipant :=
  { id := 1, activity := 1, user := 20,
    participation_status := ParticipationStatus.registered,
    registration_date := 0, notes := "", is_active := true }

def c6State : State :=
  { activities := [actA], users := [userP1, userImam],
    participants := [c6Rec], feedbacks := [] }

/-- Claim C6 as stated is false: an imam who is not the participant is
rejected with 403 even though the claim says an imam-role user is
authorized. -/
theorem mark_attended_auth_counterexample :
    ¬ (((mark_as_attended c6State userImam 1 150).2 = MarkResp.forbidden) ↔
        (userImam.id ≠ c6Rec.user ∧ userImam.role ≠ "imam")) := by
  intro h
  have h1 : (mark_as_attended c6State userImam 1 150).2 = MarkResp.forbidden := rfl
  exact (h.mp h1).2 rfl

/-- Witness for the amended C6 theorem at the imam input. -/
theorem mark_attended_forbidden_iff_witness :
    (mark_as_attended c6State userImam 1 150).2 = MarkResp.forbidden ∧
    (mark_as_attended c6State userImam 1 150).1 = c6State := by
  have h := mark_attended_forbidden_iff c6State userImam 1 150 c6Rec rfl
  have hf := h.1.mpr ⟨by decide, rfl⟩
  exact ⟨hf, h.2 hf⟩

/-! ## Claim C9: soft delete refuses attended records -/

/-- Claim C9: deleting an attended participant record fails with a 400
and leaves the state unchanged, and a successful soft delete implies the
record was not in status attended. -/
theorem delete_blocks_attended
    (s : State) (pid : Nat) (t : Int) (r : ActivityParticipant)
    (hfind : s.participants.find? (fun p => p.id == pid && p.is_active) = some r) :
    (r.participation_status = ParticipationStatus.attended →
       delete_activity_participant s pid t = (s, DeleteResp.cannotDeleteAttended)) ∧
    ((delete_activity_participant s pid t).2 = DeleteResp.okDeleted →
       r.participation_status ≠ ParticipationStatus.attended) := by
  constructor
  · intro hs
    simp only [delete_activity_participant, hfind, hs]
    simp
  · intro hok hs
    simp only [delete_activity_participant, hfind, hs] at hok
    simp at hok

/-- Witness for C9: the attended record of `c2wState` cannot be
soft-deleted. -/
theorem delete_blocks_attended_witness :
    delete_activity_participant c2wState 1 0 =
      (c2wState, DeleteResp.cannotDeleteAttended) :=
  (delete_blocks_attended c2wState 1 0 c2wRec rfl).1 rfl

/-! ## Claim C10: check-participation ignores the status -/

/-- Claim C10: with referential uniqueness (at most one active record per
(user, activity) pair, which Django's `.get()` presupposes), the
check-participation query answers is_registered = true with the record's
details whenever an active record exists, whatever its status, and
answers is_registered = false exactly when no active record exists. -/
theorem check_participation_any_active_record
    (s : State) (u : CustomUser) (aid : Nat) (a : Activity)
    (hact : s.activities.find? (fun b => b.id == aid && b.is_active) = some a)
    (huniq : (s.participants.filter
        (fun p => p.user == u.id && p.activity == aid && p.is_active)).length ≤ 1) :
    (∀ r ∈ s.participants, r.user = u.id → r.activity = aid → r.is_active = true →
        check_user_activity_participation s u aid = CheckResp.registeredAs r) ∧
    (check_user_activity_participation s u aid = CheckResp.notRegistered ↔
        ∀ p ∈ s.participants, ¬(p.user = u.id ∧ p.activity = aid ∧ p.is_active = true)) := by
  constructor
  · intro r hr hur har hir
    have hrl : r ∈ s.participants.filter
        (fun p => p.user == u.id && p.activity == aid && p.is_active) :=
      List.mem_filter.mpr ⟨hr, by simp [hur, har, hir]⟩
    have hsing := eq_singleton_of_length_le_one huniq hrl
    simp only [check_user_activity_participation, hact, hsing]
  · constructor
    · intro hnr p hp hcon
      have hpl : p ∈ s.participants.filter
          (fun q => q.user == u.id && q.activity == aid && q.is_active) :=
        List.mem_filter.mpr ⟨hp, by simp [hcon.1, hcon.2.1, hcon.2.2]⟩
      have hsing := eq_singleton_of_length_le_one huniq hpl
      simp only [check_user_activity_participation, hact, hsing] at hnr
      exact absurd hnr (by simp)
    · intro hnone
      have hnil : s.participants.filter
          (fun p => p.user == u.id && p.activity == aid && p.is_active) = [] := by
        rw [List.filter_eq_nil_iff]
        intro p hp
        simp only [Bool.and_eq_true, beq_iff_eq]
        intro hcon
        exact hnone p hp ⟨hcon.1.1, hcon.1.2, hcon.2⟩
      simp only [check_user_activity_participation, hact, hnil]

/-- The cancelled-but-active record of the C10 witness. -/
def c10Rec : ActivityParticipant :=
  { id := 1, activity := 1, user := 20,
    participation_status := ParticipationStatus.cancelled,
    registration_date := 0, notes := "", is_active := true }

def c10State : State :=
  { activities := [actA], users := [userP1], participants := [c10Rec],
    feedbacks := [] }

/-- Witness for C10: a cancelled record still answers
is_registered = true. -/
theorem check_participation_any_active_record_witness :
    check_user_activity_participation c10State userP1 1 =
      CheckResp.registeredAs c10Rec :=
  (check_participation_any_active_record c10State userP1 1 actA rfl
      (by decide)).1 c10Rec (by decide) rfl rfl rfl

/-! ## Claim C5: feedback creation never checks attendance (code bug) -/

/-- A registered (never attended) record for user 20 on activity 1. -/
def c5Rec : ActivityParticipant :=
  { id := 1, activity := 1, user := 20,
    participation_status := ParticipationStatus.registered,
    registration_date := 0, notes := "", is_active := true }

def c5State : State :=
  { activities := [actA], users := [userP1], participants := [c5Rec],
    feedbacks := [] }

def c5Feedback : ActivityFeedback :=
  { id := 1, created_by := 20, activity := 1, rating := 3, comment := "Great" }

def c5StateAfter : State :=
  { activities := [actA], users := [userP1], participants := [c5Rec],
    feedbacks := [c5Feedback] }

/-- Claim C5 is right about the intent but the code lacks the check: in a
state where user 20 has no attended record for activity 1, the
feedback-create view still creates the feedback record (its own
docstring demands "User must have attended the activity"). -/
theorem feedback_created_without_attended_record :
    (∀ p ∈ c5State.participants,
        ¬(p.user = userP1.id ∧ p.activity = 1 ∧
          p.participation_status = ParticipationStatus.attended)) ∧
    create_feedback c5State userP1 1 3 "Great" =
      FeedbackResp.createdF c5StateAfter c5Feedback := by
  constructor
  · decide
  · rfl

/-! ## Claim C8: attendance rate -/

/-- Claim C8: the statistics query's attendance rate is 0.0 when the
count of active registered records is 0 and otherwise rounds
attended/registered × 100 to two decimals, where both totals count the
activity's active records of the respective status. -/
theorem attendance_rate_formula (s : State) (aid : Nat) :
    (get_activity_statistics s aid).total_registered =
      registeredCount s.participants aid ∧
    (get_activity_statistics s aid).total_attended =
      (s.participants.filter (fun r =>
        r.activity == aid && r.participation_status == ParticipationStatus.attended
          && r.is_active)).length ∧
    get_attendance_rate (get_activity_statistics s aid) =
      (if (get_activity_statistics s aid).total_registered = 0 then 0
       else pyRound2 (((get_activity_statistics s aid).total_attended : ℚ) /
         ((get_activity_statistics s aid).total_registered : ℚ) * 100)) := by
  refine ⟨?_, ?_, rfl⟩
  · simp only [get_activity_statistics, registeredCount, List.filter_filter]
    apply congrArg List.length
    apply List.filter_congr
    intro r _
    cases h1 : r.activity == aid <;>
      cases h2 : r.participation_status == ParticipationStatus.registered <;>
        cases h3 : r.is_active <;> simp [h1, h2, h3]
  · simp only [get_activity_statistics, List.filter_filter]
    apply congrArg List.length
    apply List.filter_congr
    intro r _
    cases h1 : r.activity == aid <;>
      cases h2 : r.participation_status == ParticipationStatus.attended <;>
        cases h3 : r.is_active <;> simp [h1, h2, h3]

/-! ## Claim C7: no two active activities overlap -/

/-- A failed overlap test refutes the claim-side conjunction read off
directly. -/
lemma overlaps_false_direct {x y : Activity} (h : overlaps x y = false) :
    ¬(x.start_datetime < y.end_datetime ∧ x.end_datetime > y.start_datetime) := by
  intro hcon
  have hx : overlaps x y = true := by
    simp only [overlaps, Bool.and_eq_true, decide_eq_true_eq]
    exact ⟨hcon.1, hcon.2⟩
  simp [hx] at h

/-- A failed overlap test also refutes the conjunction with the two
activities exchanged (the test is symmetric). -/
lemma overlaps_false_symm {x y : Activity} (h : overlaps x y = false) :
    ¬(y.start_datetime < x.end_datetime ∧ y.end_datetime > x.start_datetime) := by
  intro hcon
  have hx : overlaps x y = true := by
    simp only [overlaps, Bool.and_eq_true, decide_eq_true_eq]
    constructor <;> omega
  simp [hx] at h

/-- A clean that passes ran the overlap scan and found no conflicting
active activity. -/
lemma cleanActivity_none_scan {s : State} {a : Activity}
    (hc : cleanActivity s a = none) :
    s.activities.any (fun b => b.is_active && b.id != a.id && overlaps b a) = false := by
  unfold cleanActivity at hc
  split_ifs at hc with h1 h2 h3 h4
  simp_all

/-- After a successful save, every stored activity is the saved one or an
untouched one with a different id. -/
lemma saveActivity_mem {s s1 : State} {a : Activity}
    (hsave : saveActivity s a = Except.ok s1) :
    ∀ x ∈ s1.activities, x = a ∨ (x ∈ s.activities ∧ x.id ≠ a.id) := by
  cases hc : cleanActivity s a with
  | some e => rw [saveActivity, hc] at hsave; simp at hsave
  | none =>
    rw [saveActivity, hc] at hsave
    split at hsave
    next heq => simp at heq
    next =>
      split at hsave
      next hex =>
        simp only [Except.ok.injEq] at hsave
        subst hsave
        intro x hx
        rcases List.mem_map.mp hx with ⟨b, hb, hgb⟩
        by_cases hbid : (b.id == a.id) = true
        · left
          rw [if_pos hbid] at hgb
          exact hgb.symm
        · right
          rw [if_neg hbid] at hgb
          subst hgb
          exact ⟨hb, by simpa using hbid⟩
      next hex =>
        simp only [Except.ok.injEq] at hsave
        subst hsave
        intro x hx
        rcases List.mem_append.mp hx with hxs | hxa
        · right
          refine ⟨hxs, ?_⟩
          have hall : ∀ z ∈ s.activities, ¬z.id = a.id := by simpa using hex
          exact hall x hxs
        · left
          simpa using hxa

/-- Claim C7: a successful activity save preserves the invariant that no
two distinct active activities overlap, and a save whose window overlaps
some other active activity is rejected. -/
theorem activity_save_no_overlap (s : State) (a : Activity) :
    (∀ s1, noActiveOverlap s → saveActivity s a = Except.ok s1 → noActiveOverlap s1) ∧
    (∀ b ∈ s.activities, b.is_active = true → b.id ≠ a.id →
       a.start_datetime < b.end_datetime → a.end_datetime > b.start_datetime →
       ∃ e, saveActivity s a = Except.error e) := by
  constructor
  · intro s1 hinv hsave
    have hclean : cleanActivity s a = none := by
      unfold saveActivity at hsave
      cases hc : cleanActivity s a with
      | some e => rw [hc] at hsave; simp at hsave
      | none => rfl
    have hscan := cleanActivity_none_scan hclean
    have hmem := saveActivity_mem hsave
    intro x hx y hy hxact hyact hne
    have hovfalse : ∀ z ∈ s.activities, z.is_active = true → z.id ≠ a.id →
        overlaps z a = false := by
      intro z hz hzact hzid
      have hfz := List.any_eq_false.mp hscan z hz
      cases hov : overlaps z a with
      | false => rfl
      | true =>
        exfalso
        apply hfz
        simp [hzact, hov, bne_iff_ne, hzid]
    rcases hmem x hx with rfl | ⟨hxs, hxid⟩
    · rcases hmem y hy with rfl | ⟨hys, hyid⟩
      · exact absurd rfl hne
      · exact overlaps_false_symm (hovfalse y hys hyact hyid)
    · rcases hmem y hy with rfl | ⟨hys, hyid⟩
      · exact overlaps_false_direct (hovfalse x hxs hxact hxid)
      · exact hinv x hxs y hys hxact hyact hne
  · intro b hb hact hid h1 h2
    cases hc : cleanActivity s a with
    | some e =>
      refine ⟨e, ?_⟩
      unfold saveActivity
      rw [hc]
    | none =>
      exfalso
      have hscan := cleanActivity_none_scan hc
      have hfb := List.any_eq_false.mp hscan b hb
      apply hfb
      simp only [overlaps, hact, Bool.and_eq_true, bne_iff_ne, decide_eq_true_eq]
      exact ⟨⟨trivial, hid⟩, by omega, by omega⟩

/-- A second activity that does not overlap `actA`. -/
def actB : Activity :=
  { id := 2, name := "Tahajjud", start_datetime := 300, end_datetime := 400,
    required_participants := 1, is_active := true, created_by := 10 }

def c7State : State :=
  { activities := [actA], users := [organizer], participants := [], feedbacks := [] }

def c7StateAfter : State :=
  { activities := [actA, actB], users := [organizer], participants := [],
    feedbacks := [] }

/-- Witness for C7: saving a non-overlapping second activity succeeds and
keeps the invariant. -/
theorem activity_save_no_overlap_witness :
    saveActivity c7State actB = Except.ok c7StateAfter ∧
      noActiveOverlap c7StateAfter :=
  ⟨rfl, (activity_save_no_overlap c7State actB).1 c7StateAfter
    (by unfold noActiveOverlap; decide) rfl⟩

/-! ## Claim C3: bulk update is all-or-nothing -/

/-- Every recorded bulk error carries the enumeration index of its item. -/
lemma bulkRun_index_lt (u : CustomUser) (t : Int) :
    ∀ (data : List BulkItem) (st : State) (idx : Nat),
      ∀ e ∈ (bulkRun u t st idx data).2.1,
        idx ≤ e.index ∧ e.index < idx + data.length := by
  intro data
  induction data with
  | nil =>
    intro st idx e he
    simp [bulkRun] at he
  | cons item rest ih =>
    intro st idx e he
    cases hstep : bulkStep u t st item with
    | mk st1 opt =>
      cases opt with
      | none =>
        simp only [bulkRun, hstep] at he
        have := ih st1 (idx + 1) e he
        simp only [List.length_cons]
        omega
      | some m =>
        simp only [bulkRun, hstep, List.mem_cons] at he
        simp only [List.length_cons]
        rcases he with rfl | he
        · exact ⟨Nat.le_refl _, by show idx < idx + (rest.length + 1); omega⟩
        · have := ih st1 (idx + 1) e he
          omega

/-- When the loop records no error, every item was applied, in order. -/
lemma bulkRun_no_errors (u : CustomUser) (t : Int) :
    ∀ (data : List BulkItem) (st : State) (idx : Nat),
      (bulkRun u t st idx data).2.1 = [] →
      (bulkRun u t st idx data).2.2 = data.map (fun i => i.participant_id) := by
  intro data
  induction data with
  | nil =>
    intro st idx _
    simp [bulkRun]
  | cons item rest ih =>
    intro st idx herr
    cases hstep : bulkStep u t st item with
    | mk st1 opt =>
      cases opt with
      | none =>
        simp only [bulkRun, hstep] at herr ⊢
        rw [ih st1 (idx + 1) herr]
        simp
      | some m =>
        simp only [bulkRun, hstep] at herr
        exact absurd herr (List.cons_ne_nil _ _)

/-- Claim C3: the bulk status update is all-or-nothing — any failing item
rolls the whole batch back to the pre-request state with a 207 whose
error entries index the failing items; with no failure every item's
update commits with a 200. -/
theorem bulk_update_all_or_nothing (s : State) (u : CustomUser)
    (data : List BulkItem) (t : Int) (hne : data ≠ []) :
    ((bulk_update_participation_status s u data t).errors ≠ [] →
        (bulk_update_participation_status s u data t).httpStatus = 207 ∧
        (bulk_update_participation_status s u data t).state = s) ∧
    ((bulk_update_participation_status s u data t).errors = [] →
        (bulk_update_participation_status s u data t).httpStatus = 200 ∧
        (bulk_update_participation_status s u data t).updated =
          data.map (fun i => i.participant_id) ∧
        (bulk_update_participation_status s u data t).state =
          (bulkRun u t s 0 data).1) ∧
    (∀ e ∈ (bulk_update_participation_status s u data t).errors,
        e.index < data.length) := by
  have hemp : data.isEmpty = false := by
    cases data with
    | nil => exact absurd rfl hne
    | cons a l => rfl
  by_cases hz : (bulkRun u t s 0 data).2.1.isEmpty
  · have hnil : (bulkRun u t s 0 data).2.1 = [] := List.isEmpty_iff.mp hz
    have hres : bulk_update_participation_status s u data t =
        ⟨200, (bulkRun u t s 0 data).1, (bulkRun u t s 0 data).2.1,
          (bulkRun u t s 0 data).2.2⟩ := by
      simp only [bulk_update_participation_status, hemp, Bool.false_eq_true,
        if_false, hz, if_true]
    rw [hres]
    refine ⟨fun h => absurd hnil h, fun _ => ⟨rfl, ?_, rfl⟩, ?_⟩
    · exact bulkRun_no_errors u t data s 0 hnil
    · intro e he
      rw [hnil] at he
      simp at he
  · have hres : bulk_update_participation_status s u data t =
        ⟨207, s, (bulkRun u t s 0 data).2.1, (bulkRun u t s 0 data).2.2⟩ := by
      simp only [bulk_update_participation_status, hemp, Bool.false_eq_true,
        if_false, hz]
    rw [hres]
    refine ⟨fun _ => ⟨rfl, rfl⟩, fun h => absurd h (by simpa using hz), ?_⟩
    intro e he
    have := bulkRun_index_lt u t data s 0 e he
    omega

def userP3 : CustomUser := { id := 22, role := "participant", is_active := true }

def c3Rec1 : ActivityParticipant :=
  { id := 1, activity := 1, user := 20,
    participation_status := ParticipationStatus.registered,
    registration_date := 0, notes := "", is_active := true }

def c3Rec2 : ActivityParticipant :=
  { id := 2, activity := 1, user := 21,
    participation_status := ParticipationStatus.attended,
    registration_date := 0, notes := "", is_active := true }

def c3Rec3 : ActivityParticipant :=
  { id := 3, activity := 1, user := 22,
    participation_status := ParticipationStatus.registered,
    registration_date := 0, notes := "", is_active := true }

def c3State : State :=
  { activities := [actA], users := [organizer, userP1, userP2, userP3],
    participants := [c3Rec1, c3Rec2, c3Rec3], feedbacks := [] }

/-- The spec's scenario: three items, the second one a disallowed
attended → registered transition. -/
def c3Data : List BulkItem :=
  [{ participant_id := 1, participation_status := ParticipationStatus.cancelled },
   { participant_id := 2, participation_status := ParticipationStatus.registered },
   { participant_id := 3, participation_status := ParticipationStatus.no_show }]

/-- Witness for C3: the mixed batch answers 207 and leaves the state
untouched, although items 1 and 3 are individually valid. -/
theorem bulk_update_all_or_nothing_witness :
    (bulk_update_participation_status c3State organizer c3Data 50).httpStatus = 207 ∧
    (bulk_update_participation_status c3State organizer c3Data 50).state = c3State := by
  have herr : (bulk_update_participation_status c3State organizer c3Data 50).errors =
      [⟨1, "Invalid status transition"⟩] := rfl
  exact (bulk_update_all_or_nothing c3State organizer c3Data 50 (by decide)).1
    (by rw [herr]; exact List.cons_ne_nil _ _)

/-! ## Claim C1: capacity -/

/-- Replacing the unique row with a given id changes any count into the
count excluding that id plus the replacement's own contribution. -/
lemma countP_updateById (p : ActivityParticipant → Bool)
    (l : List ActivityParticipant) (u : ActivityParticipant) :
    (l.map (fun r => r.id)).Nodup →
    (∃ r ∈ l, r.id = u.id) →
    (updateById l u).countP p =
      l.countP (fun b => p b && b.id != u.id) + (if p u then 1 else 0) := by
  induction l with
  | nil =>
    rintro _ ⟨r, hr, _⟩
    cases hr
  | cons h tl ih =>
    rintro hnd ⟨r, hr, hid⟩
    simp only [List.map_cons, List.nodup_cons] at hnd
    obtain ⟨hhd, htl⟩ := hnd
    by_cases hh : (h.id == u.id) = true
    · have hhu : h.id = u.id := by simpa using hh
      have hmap : updateById (h :: tl) u = u :: tl := by
        simp only [updateById, List.map_cons, hh, if_true]
        have : tl.map (fun b => if b.id == u.id then u else b) = tl.map id := by
          apply List.map_congr_left
          intro b hb
          have hbne : b.id ≠ u.id := by
            rw [← hhu]
            intro hcon
            exact hhd (by rw [← hcon]; exact List.mem_map_of_mem _ hb)
          simp [hbne]
        rw [this, List.map_id]
      rw [hmap, List.countP_cons]
      have hqh : (p h && h.id != u.id) = false := by
        simp [bne, hh]
      have hcongr : tl.countP (fun b => p b && b.id != u.id) = tl.countP p := by
        apply List.countP_congr
        intro b hb
        have hbne : b.id ≠ u.id := by
          rw [← hhu]
          intro hcon
          exact hhd (by rw [← hcon]; exact List.mem_map_of_mem _ hb)
        simp [bne_iff_ne, hbne]
      rw [List.countP_cons, hqh, hcongr]
      simp only [Bool.false_eq_true, if_false]
      omega
    · have hmap : updateById (h :: tl) u = h :: updateById tl u := by
        simp only [updateById, List.map_cons]
        rw [if_neg hh]
      have hrtl : r ∈ tl := by
        rcases List.mem_cons.mp hr with rfl | hrtl
        · exact absurd (by simpa using hid) hh
        · exact hrtl
      have ihh := ih htl ⟨r, hrtl, hid⟩
      rw [hmap, List.countP_cons, ihh, List.countP_cons]
      have hqh : (p h && h.id != u.id) = (p h : Bool) := by
        have : (h.id != u.id) = true := by simpa [bne] using hh
        rw [this, Bool.and_true]
      rw [hqh]
      omega

lemma countP_singleton_le_one {α : Type} (p : α → Bool) (x : α) :
    List.countP p [x] ≤ 1 := by
  rw [List.countP_cons]
  simp only [List.countP_nil, Nat.zero_add]
  split <;> omega

/-- The count variants are `countP` in disguise. -/
lemma registeredCount_eq_countP (ps : List ActivityParticipant) (aid : Nat) :
    registeredCount ps aid = ps.countP (fun r =>
      r.activity == aid && r.participation_status == .registered && r.is_active) := by
  rw [registeredCount, List.countP_eq_length_filter]

lemma registeredCountExcl_eq_countP (ps : List ActivityParticipant)
    (aid : Nat) (excluded : Nat) :
    registeredCountExcl ps aid excluded = ps.countP (fun r =>
      r.activity == aid && r.participation_status == .registered && r.is_active
        && r.id != excluded) := by
  rw [registeredCountExcl, List.countP_eq_length_filter]

/-- Claim C1 (amended: the capacity bound is enforced by the create
operation only): with unique row ids, registering for an open active
activity whose registered count already reached required_participants
fails with the capacity error and leaves the state unchanged, and any
successful create — fresh insert or re-registration — leaves the
registered count at most required_participants.  (Status updates do not
re-check capacity; see the counterexample.) -/
theorem create_registration_capacity (s : State) (req : CreateRequest) (t : Int)
    (a : Activity) (u : CustomUser)
    (hnd : (s.participants.map (fun r => r.id)).Nodup)
    (ha : s.findActivity req.activity = some a)
    (hu : s.findUser req.user = some u) :
    (a.is_active = true → t < a.start_datetime →
      a.required_participants ≤ registeredCount s.participants a.id →
      create_activity_participant s req t =
        (s, CreateResp.badRequestC CreateError.capacityFull)) ∧
    (∀ s1 r, create_activity_participant s req t = (s1, CreateResp.created r) →
      registeredCount s1.participants a.id ≤ a.required_participants) := by
  constructor
  · intro hact hfut hcap
    have hva : validate_activity s a t = some CreateError.capacityFull := by
      unfold validate_activity
      rw [if_neg (by simp [hact]), if_neg (by simp; omega), if_pos (by simpa using hcap)]
    simp only [create_activity_participant, ha, hu, hva]
  · intro s1 r hcreate
    simp only [create_activity_participant, ha, hu] at hcreate
    split at hcreate
    next e heq => simp at hcreate
    next hva =>
      split at hcreate
      next e heq => simp at hcreate
      next hvu =>
        split at hcreate
        next e heq => simp at hcreate
        next inst hcv =>
          have hfacts : registeredCountExcl s.participants a.id inst.id <
              a.required_participants ∧
              findCancelledActive s.participants a.id u.id = some inst := by
            unfold createValidate at hcv
            split at hcv
            next r2 hfe => split at hcv <;> simp at hcv
            next hfe =>
              split at hcv
              next r3 hfc =>
                split at hcv
                next h3 => simp at hcv
                next h3 =>
                  simp only [Except.ok.injEq, Option.some.injEq] at hcv
                  subst hcv
                  exact ⟨by simpa using h3, hfc⟩
              next hfc => simp at hcv
          obtain ⟨hlt, hfc⟩ := hfacts
          have hmem : inst ∈ s.participants :=
            List.mem_of_find?_eq_some hfc
          split at hcreate
          next hcl =>
            rw [Prod.mk.injEq] at hcreate
            obtain ⟨hs1, hr⟩ := hcreate
            subst hs1
            dsimp only
            rw [registeredCount_eq_countP]
            have hcnt := countP_updateById
              (fun q => q.activity == a.id &&
                q.participation_status == ParticipationStatus.registered && q.is_active)
              s.participants
              { inst with participation_status := req.participation_status,
                          notes := req.notes, registration_date := t }
              hnd ⟨inst, hmem, rfl⟩
            dsimp only at hcnt
            rw [hcnt]
            rw [registeredCountExcl_eq_countP] at hlt
            split <;> omega
          next hcl => simp at hcreate
        next hcv =>
          split at hcreate
          next hcap2 => simp at hcreate
          next hcap2 =>
            have hcap3 : registeredCount s.participants a.id <
                a.required_participants := by
              simpa using hcap2
            split at hcreate
            next hcl =>
              rw [Prod.mk.injEq] at hcreate
              obtain ⟨hs1, hr⟩ := hcreate
              subst hs1
              dsimp only
              rw [registeredCount_eq_countP, List.countP_append,
                ← registeredCount_eq_countP]
              refine le_trans (Nat.add_le_add_left (countP_singleton_le_one _ _) _) ?_
              omega
            next hcl => simp at hcreate

def c1wState : State :=
  { activities := [actA], users := [userP1, userP2], participants := [c3Rec1],
    feedbacks := [] }

/-- Witness for the amended C1 theorem: registering a second user on a
full capacity-1 activity fails with the capacity error. -/
theorem create_registration_capacity_witness :
    create_activity_participant c1wState { activity := 1, user := 21 } 0 =
      (c1wState, CreateResp.badRequestC CreateError.capacityFull) :=
  (create_registration_capacity c1wState { activity := 1, user := 21 } 0 actA userP2
    (by decide) rfl rfl).1 rfl (by decide) (by decide)

/-- A cancelled-but-active registration of user 21 on the full
activity. -/
def c1cRec2 : ActivityParticipant :=
  { id := 2, activity := 1, user := 21,
    participation_status := ParticipationStatus.cancelled,
    registration_date := 0, notes := "", is_active := true }

def c1cState : State :=
  { activities := [actA], users := [userP1, userP2],
    participants := [c3Rec1, c1cRec2], feedbacks := [] }

def c1cRec2After : ActivityParticipant :=
  { id := 2, activity := 1, user := 21,
    participation_status := ParticipationStatus.registered,
    registration_date := 0, notes := "", is_active := true }

def c1cStateAfter : State :=
  { activities := [actA], users := [userP1, userP2],
    participants := [c3Rec1, c1cRec2After], feedbacks := [] }

/-- Claim C1 as stated is false: the status-update operation can set a
cancelled record back to registered without any capacity check, pushing
the registered count of the capacity-1 activity to 2. -/
theorem update_breaks_capacity_counterexample :
    actA.required_participants = 1 ∧
    update_activity_participant c1cState 2
        { participation_status := some ParticipationStatus.registered } 0 =
      (c1cStateAfter, UpdateResp.updatedOk c1cRec2After) ∧
    registeredCount c1cStateAfter.participants 1 = 2 :=
  ⟨rfl, rfl, rfl⟩

/-! ## Claim C4: re-registration reuses the cancelled row -/

/-- Claim C4 (amended: the existing cancelled/no_show record must have
is_active = true, since the lookup filters on it): when an active
cancelled or no_show record exists for the requested pair and the
default-status registration succeeds, the very same row (same id) is
mutated back to registered with a fresh registration timestamp and the
request's notes, and no new row is inserted. -/
theorem reregistration_reuses_row (s : State) (req : CreateRequest) (t : Int)
    (inst : ActivityParticipant) (s1 : State) (r : ActivityParticipant)
    (hreq : req.participation_status = ParticipationStatus.registered)
    (hfc : findCancelledActive s.participants req.activity req.user = some inst)
    (hcreate : create_activity_participant s req t = (s1, CreateResp.created r)) :
    r.id = inst.id ∧ r.participation_status = ParticipationStatus.registered ∧
    r.registration_date = t ∧ r.notes = req.notes ∧
    s1.participants = updateById s.participants r ∧
    s1.participants.length = s.participants.length := by
  cases hafind : s.findActivity req.activity with
  | none =>
    simp only [create_activity_participant, hafind] at hcreate
    simp at hcreate
  | some a =>
    cases hufind : s.findUser req.user with
    | none =>
      simp only [create_activity_participant, hafind, hufind] at hcreate
      simp at hcreate
    | some u =>
      have haid : a.id = req.activity := by
        rw [State.findActivity] at hafind
        simpa using List.find?_some hafind
      have huid : u.id = req.user := by
        rw [State.findUser] at hufind
        simpa using List.find?_some hufind
      simp only [create_activity_participant, hafind, hufind] at hcreate
      split at hcreate
      next e heq => simp at hcreate
      next =>
        split at hcreate
        next e heq => simp at hcreate
        next =>
          split at hcreate
          next e hcv => simp at hcreate
          next inst2 hcv =>
            have hfc3 : findCancelledActive s.participants a.id u.id = some inst2 := by
              unfold createValidate at hcv
              split at hcv
              next r2 hfe => split at hcv <;> simp at hcv
              next hfe =>
                split at hcv
                next r3 hfcx =>
                  split at hcv
                  next => simp at hcv
                  next =>
                    simp only [Except.ok.injEq, Option.some.injEq] at hcv
                    rw [← hcv]
                    exact hfcx
                next hfcx => simp at hcv
            rw [haid, huid, hfc] at hfc3
            have hinst : inst2 = inst := by
              exact (Option.some.inj hfc3).symm
            subst hinst
            split at hcreate
            next hcl =>
              rw [Prod.mk.injEq] at hcreate
              obtain ⟨hs1, hr⟩ := hcreate
              subst hs1
              rw [CreateResp.created.injEq] at hr
              subst hr
              refine ⟨rfl, hreq, rfl, rfl, rfl, ?_⟩
              rw [updateById]
              dsimp only
              rw [List.length_map]
            next hcl => simp at hcreate
          next hcv =>
            have hfc2 : findCancelledActive s.participants a.id u.id = none ∨
                (∃ e, createValidate s a u = Except.error e) := by
              unfold createValidate at hcv
              split at hcv
              next r2 hfe => split at hcv <;> simp at hcv
              next hfe =>
                split at hcv
                next r3 hfcx =>
                  split at hcv
                  next => simp at hcv
                  next => simp at hcv
                next hfcx => exact Or.inl hfcx
            rcases hfc2 with hnone | ⟨e, herr⟩
            · rw [haid, huid, hfc] at hnone
              simp at hnone
            · rw [herr] at hcv
              simp at hcv

/-- The active cancelled record reused by the C4 witness. -/
def c4wRec : ActivityParticipant :=
  { id := 1, activity := 1, user := 20,
    participation_status := ParticipationStatus.cancelled,
    registration_date := 0, notes := "old", is_active := true }

def c4wState : State :=
  { activities := [actA], users := [userP1], participants := [c4wRec],
    feedbacks := [] }

def c4wRecAfter : ActivityParticipant :=
  { id := 1, activity := 1, user := 20,
    participation_status := ParticipationStatus.registered,
    registration_date := 5, notes := "", is_active := true }

def c4wStateAfter : State :=
  { activities := [actA], users := [userP1], participants := [c4wRecAfter],
    feedbacks := [] }

/-- Witness for the amended C4 theorem: re-registering after a
cancellation mutates row 1 in place. -/
theorem reregistration_reuses_row_witness :
    c4wRecAfter.id = c4wRec.id ∧
    c4wRecAfter.participation_status = ParticipationStatus.registered ∧
    c4wStateAfter.participants.length = c4wState.participants.length := by
  have h := reregistration_reuses_row c4wState { activity := 1, user := 20 } 5
    c4wRec c4wStateAfter c4wRecAfter rfl rfl rfl
  exact ⟨h.1, h.2.1, h.2.2.2.2.2⟩

/-- A cancelled record that was then soft-deleted (is_active = false). -/
def c4cRec : ActivityParticipant :=
  { id := 1, activity := 1, user := 20,
    participation_status := ParticipationStatus.cancelled,
    registration_date := 0, notes := "", is_active := false }

def c4cState : State :=
  { activities := [actA], users := [userP1], participants := [c4cRec],
    feedbacks := [] }

def c4cNewRec : ActivityParticipant :=
  { id := 2, activity := 1, user := 20,
    participation_status := ParticipationStatus.registered,
    registration_date := 5, notes := "", is_active := true }

def c4cStateAfter : State :=
  { activities := [actA], users := [userP1], participants := [c4cRec, c4cNewRec],
    feedbacks := [] }

/-- Claim C4 as stated is false: a (user, activity) pair with an existing
cancelled record — here one that was soft-deleted — gets a brand new row
with a new id instead of a mutation of the old one. -/
theorem reregistration_counterexample :
    c4cRec.participation_status = ParticipationStatus.cancelled ∧
    create_activity_participant c4cState { activity := 1, user := 20 } 5 =
      (c4cStateAfter, CreateResp.created c4cNewRec) ∧
    c4cNewRec.id ≠ c4cRec.id ∧
    c4cStateAfter.participants.length = c4cState.participants.length + 1 :=
  ⟨rfl, rfl, by decide, rfl⟩

end Itikaf
